import Mathlib

/-!
Verification development for the BTC settlement-markets fetcher
(btc_markets_fetcher.py). The arbitrage core — fee models, the
Polymarket normalizer, the cross-venue matcher, the evaluator and the
result sort — is embedded as executable Lean definitions. Python floats
are modelled by exact rationals; Python None by Option; a Python
exception by Except. Python str operations used by the core
(lower/strip/split/upper, substring containment, float parsing) are
modelled structurally over the character list of a string.
-/

namespace BtcFetcher

/-- Model of Python list-of-chars prefix test: needle is a prefix of hay. -/
def prefixOfChars : List Char → List Char → Bool
  | [], _ => true
  | _ :: _, [] => false
  | c :: cs, d :: ds => c == d && prefixOfChars cs ds

/-- Model of Python substring containment at the character level:
needle occurs contiguously inside hay. -/
def occursIn (needle : List Char) : List Char → Bool
  | [] => needle.isEmpty
  | d :: ds => prefixOfChars needle (d :: ds) || occursIn needle ds

/-- Model of the Python expression a in b on strings. -/
def strIn (a b : String) : Bool :=
  occursIn a.data b.data

/-- Model of Python str.lower() (ASCII, as used by the market titles). -/
def lowerStr (s : String) : String :=
  String.mk (s.data.map Char.toLower)

/-- Model of Python str.upper() (ASCII). -/
def upperStr (s : String) : String :=
  String.mk (s.data.map Char.toUpper)

/-- Strip leading and trailing whitespace from a character list
(model of Python str.strip()). -/
def trimChars (l : List Char) : List Char :=
  ((l.dropWhile Char.isWhitespace).reverse.dropWhile Char.isWhitespace).reverse

/-- The key normalization applied before matching:
key = title.lower().strip() (source lines 213 and 216). -/
def normKey (s : String) : String :=
  String.mk (trimChars ((lowerStr s).data))

/-- Model of Python str.split() (split on whitespace runs, no empty
words); the accumulator holds the current word reversed. -/
def splitWordsAux : List Char → List Char → List String
  | [], acc => if acc.isEmpty then [] else [String.mk acc.reverse]
  | c :: cs, acc =>
    if c.isWhitespace then
      (if acc.isEmpty then [] else [String.mk acc.reverse]) ++ splitWordsAux cs []
    else
      splitWordsAux cs (c :: acc)

/-- Model of the Python expression set(key.split()) (source lines 229-230). -/
def wordFinset (s : String) : Finset String :=
  (splitWordsAux s.data []).toFinset

/-- The match test of source line 233:
len(kalshi_words and poly_words) >= 2 or kalshi_key in poly_key or
poly_key in kalshi_key. -/
def matchKeys (kalshi_key poly_key : String) : Bool :=
  decide (2 ≤ (wordFinset kalshi_key ∩ wordFinset poly_key).card)
    || strIn kalshi_key poly_key || strIn poly_key kalshi_key

/-- Digits of a decimal numeral to a Nat; none on any non-digit
character (model of the digit loop inside Python float parsing). -/
def parseDigitsAux : List Char → Nat → Option Nat
  | [], acc => some acc
  | c :: cs, acc =>
    if c.isDigit then parseDigitsAux cs (acc * 10 + (c.toNat - 48)) else none

/-- Model of Python float(s) on the decimal numerals the feed uses:
an optional minus sign, an integer part and an optional fraction part;
none models the ValueError float raises on anything else, such as a
non-numeric string. -/
def parseFloat (s : String) : Option ℚ :=
  let signSplit : Bool × List Char :=
    match s.data with
    | '-' :: r => (true, r)
    | r => (false, r)
  let intPart := signSplit.2.takeWhile (fun c => c ≠ '.')
  let dotRest := signSplit.2.dropWhile (fun c => c ≠ '.')
  let mag : Option ℚ :=
    match dotRest with
    | [] =>
      if intPart.isEmpty then none
      else (parseDigitsAux intPart 0).map (fun n => (n : ℚ))
    | _ :: frac =>
      if frac.any (fun c => c = '.') then none
      else if intPart.isEmpty && frac.isEmpty then none
      else
        match parseDigitsAux intPart 0, parseDigitsAux frac 0 with
        | some i, some f => some ((i : ℚ) + (f : ℚ) / ((10 : ℚ) ^ frac.length))
        | _, _ => none
  mag.map (fun m => if signSplit.1 then -m else m)

/-- A normalized Kalshi market record (source lines 63-82; the fields
the arbitrage core reads; the remaining fields are pass-through
metadata never consulted by matching or evaluation). The title defaults
to the empty string when absent (market.get of title with default).
Prices are cents; a missing quote is none. -/
structure KalshiMarket where
  title : String
  ticker : Option String
  yes_ask : Option ℚ
  no_ask : Option ℚ
  volume : Option ℚ
deriving DecidableEq

/-- A normalized Polymarket market record (source lines 141-156; the
fields the arbitrage core reads). Prices are on the 0-1 scale; a
missing price is none. -/
structure PolyMarket where
  event_title : String
  market_question : Option String
  market_id : Option String
  yes_price : Option ℚ
  no_price : Option ℚ
  volume : Option ℚ
deriving DecidableEq

/-- One reported arbitrage opportunity (source lines 270-297). -/
structure Opportunity where
  strategy : String
  kalshi_market : String
  kalshi_ticker : Option String
  poly_market : String
  kalshi_price : ℚ
  kalshi_fee : ℚ
  poly_price : ℚ
  poly_fee : ℚ
  total_cost : ℚ
  profit : ℚ
  profit_pct : ℚ
deriving DecidableEq

/-- Kalshi taker fee (source lines 178-182): p = price_cents / 100,
fee_rate = 0.07 * p * (1 - p), returned as cents (times 100). -/
def calculate_kalshi_fee (price_cents : ℚ) : ℚ :=
  let p := price_cents / 100
  let fee_rate := (7 / 100) * p * (1 - p)
  fee_rate * 100

/-- Polymarket fee (source lines 184-190): 0.1 percent taker fee in US
mode, otherwise 2 percent. -/
def calculate_polymarket_fee (price : ℚ) (is_us : Bool) : ℚ :=
  if is_us then price * (1 / 1000) else price * (2 / 100)

/-- A raw Polymarket market sub-record (source lines 127-139).
outcomePricesDecoded models the result of JSON-decoding the
outcomePrices string: some l when json.loads succeeds with list l
(a missing key decodes the default to some of the empty list), none
when json.loads raises, which the source recovers locally to the empty
list (source lines 130-136). -/
structure RawPolyMarket where
  question : Option String
  id : Option String
  outcomePricesDecoded : Option (List String)
deriving DecidableEq

/-- A raw Polymarket event (source lines 117-126): title and
description default to the empty string, and each event carries a list
of market sub-records. -/
structure RawPolyEvent where
  title : Option String
  description : Option String
  markets : List RawPolyMarket
  volume : Option ℚ
deriving DecidableEq

/-- The Bitcoin filter of source lines 122-123: BTC or BITCOIN occurs
in the upper-cased title or description. -/
def containsBTC (title description : String) : Bool :=
  strIn "BTC" (upperStr title) || strIn "BITCOIN" (upperStr title)
    || strIn "BTC" (upperStr description) || strIn "BITCOIN" (upperStr description)

/-- Python float conversion as used on source lines 138-139: a failed
parse raises ValueError, modelled as an error of the Except monad. -/
def toFloatExc (s : String) : Except String ℚ :=
  match parseFloat s with
  | some q => Except.ok q
  | none => Except.error "ValueError"

/-- Normalization of one raw Polymarket market (source lines 128-156):
json.loads failure was already recovered to the empty list, then
yes is float of element 0 when the list is non-empty (else absent) and
no is float of element 1 when the list has more than one element (else
absent); a float failure escapes as an exception. -/
def normalizePolyMarket (event_title : String) (volume : Option ℚ)
    (m : RawPolyMarket) : Except String PolyMarket := do
  let outcome_prices := m.outcomePricesDecoded.getD []
  let yes_price ←
    match outcome_prices with
    | [] => Except.ok none
    | s :: _ => (toFloatExc s).map some
  let no_price ←
    match outcome_prices with
    | _ :: s :: _ => (toFloatExc s).map some
    | _ => Except.ok none
  Except.ok
    { event_title := event_title
      market_question := m.question
      market_id := m.id
      yes_price := yes_price
      no_price := no_price
      volume := volume }

/-- Normalize the markets of one retained event in order, stopping at
the first escaped exception. -/
def normalizeMarketList (event_title : String) (volume : Option ℚ) :
    List RawPolyMarket → Except String (List PolyMarket)
  | [] => Except.ok []
  | m :: ms => do
    let r ← normalizePolyMarket event_title volume m
    let rs ← normalizeMarketList event_title volume ms
    Except.ok (r :: rs)

/-- The event loop of source lines 117-157: keep an event only when the
Bitcoin filter passes, then expand its markets. -/
def processEvents : List RawPolyEvent → Except String (List PolyMarket)
  | [] => Except.ok []
  | ev :: evs => do
    let title := ev.title.getD ""
    let description := ev.description.getD ""
    let here ←
      if containsBTC title description then
        normalizeMarketList title ev.volume ev.markets
      else
        Except.ok []
    let rest ← processEvents evs
    Except.ok (here ++ rest)

/-- fetch_polymarket_btc_markets (source lines 94-161) restricted to
its in-memory normalization pass: the outer try of line 96 catches any
escaped exception at line 159 and returns the empty list. -/
def fetch_polymarket_btc_markets (events : List RawPolyEvent) : List PolyMarket :=
  match processEvents events with
  | Except.ok l => l
  | Except.error _ => []

/-- Python dict assignment for the Kalshi dict (source line 214): an
existing key keeps its position and gets the new value, a new key is
appended. The dict is modelled as an association list in insertion
order, matching Python dict iteration order. -/
def kdictInsert (d : List (String × KalshiMarket)) (key : String)
    (m : KalshiMarket) : List (String × KalshiMarket) :=
  if d.any (fun kv => kv.1 == key) then
    d.map (fun kv => if kv.1 == key then (kv.1, m) else kv)
  else
    d ++ [(key, m)]

/-- Building the Kalshi dict (source lines 210-214): one pass over the
Kalshi records keyed by the normalized title; a repeated key overwrites
the stored market. -/
def buildKalshiDict (ms : List KalshiMarket) : List (String × KalshiMarket) :=
  ms.foldl (fun d m => kdictInsert d (normKey m.title) m) []

/-- Python dict-of-lists insertion for the Polymarket dict (source
lines 216-219): create an empty list at a new key, then append. -/
def pdictInsert (d : List (String × List PolyMarket)) (key : String)
    (m : PolyMarket) : List (String × List PolyMarket) :=
  if d.any (fun kv => kv.1 == key) then
    d.map (fun kv => if kv.1 == key then (kv.1, kv.2 ++ [m]) else kv)
  else
    d ++ [(key, [m])]

/-- Building the Polymarket dict (source lines 215-219), keyed by the
normalized event title, grouping markets in input order. -/
def buildPolyDict (ms : List PolyMarket) : List (String × List PolyMarket) :=
  ms.foldl (fun d m => pdictInsert d (normKey m.event_title) m) []

/-- Evaluation of one (kalshi market, polymarket market) combination
(source lines 235-297). Line 241, if not all of the four prices then
continue, skips the combination when any of the four prices is absent
(Python None) or equal to zero (Python falsy). Otherwise both hedge
directions are computed and each is emitted when its profit percentage
meets the threshold. -/
def evalPair (min_profit_percent : ℚ) (use_us_poly_fee : Bool)
    (kalshi_market : KalshiMarket) (poly_market : PolyMarket) : List Opportunity :=
  match kalshi_market.yes_ask, kalshi_market.no_ask,
      poly_market.yes_price, poly_market.no_price with
  | some kalshi_yes_ask, some kalshi_no_ask, some poly_yes, some poly_no =>
    if kalshi_yes_ask = 0 ∨ kalshi_no_ask = 0 ∨ poly_yes = 0 ∨ poly_no = 0 then
      []
    else
      let poly_yes_cents := poly_yes * 100
      let poly_no_cents := poly_no * 100
      let kalshi_yes_cost := kalshi_yes_ask
      let kalshi_yes_fee := calculate_kalshi_fee kalshi_yes_ask
      let poly_no_cost := poly_no_cents
      let poly_no_fee := calculate_polymarket_fee poly_no_cents use_us_poly_fee
      let total_cost_1 := kalshi_yes_cost + kalshi_yes_fee + poly_no_cost + poly_no_fee
      let profit_1 := 100 - total_cost_1
      let profit_pct_1 := if total_cost_1 > 0 then profit_1 / total_cost_1 * 100 else 0
      let kalshi_no_cost := kalshi_no_ask
      let kalshi_no_fee := calculate_kalshi_fee kalshi_no_ask
      let poly_yes_cost := poly_yes_cents
      let poly_yes_fee := calculate_polymarket_fee poly_yes_cents use_us_poly_fee
      let total_cost_2 := kalshi_no_cost + kalshi_no_fee + poly_yes_cost + poly_yes_fee
      let profit_2 := 100 - total_cost_2
      let profit_pct_2 := if total_cost_2 > 0 then profit_2 / total_cost_2 * 100 else 0
      (if profit_pct_1 ≥ min_profit_percent then
        [{ strategy := "Buy YES on Kalshi, Buy NO on Polymarket"
           kalshi_market := kalshi_market.title
           kalshi_ticker := kalshi_market.ticker
           poly_market := poly_market.event_title
           kalshi_price := kalshi_yes_ask
           kalshi_fee := kalshi_yes_fee
           poly_price := poly_no_cents
           poly_fee := poly_no_fee
           total_cost := total_cost_1
           profit := profit_1
           profit_pct := profit_pct_1 }]
      else []) ++
      (if profit_pct_2 ≥ min_profit_percent then
        [{ strategy := "Buy NO on Kalshi, Buy YES on Polymarket"
           kalshi_market := kalshi_market.title
           kalshi_ticker := kalshi_market.ticker
           poly_market := poly_market.event_title
           kalshi_price := kalshi_no_ask
           kalshi_fee := kalshi_no_fee
           poly_price := poly_yes_cents
           poly_fee := poly_yes_fee
           total_cost := total_cost_2
           profit := profit_2
           profit_pct := profit_pct_2 }]
      else [])
  | _, _, _, _ => []

/-- The double matching loop of source lines 226-297, in dict iteration
order: every (kalshi entry, polymarket entry) key pair passing the
match test of line 233 contributes the evaluation of each grouped
polymarket market in order. -/
def collectOpportunities (min_profit_percent : ℚ) (use_us_poly_fee : Bool)
    (kalshi_markets : List KalshiMarket) (poly_markets : List PolyMarket) :
    List Opportunity :=
  (buildKalshiDict kalshi_markets).flatMap (fun kk =>
    (buildPolyDict poly_markets).flatMap (fun pk =>
      if matchKeys kk.1 pk.1 then
        pk.2.flatMap (fun pm => evalPair min_profit_percent use_us_poly_fee kk.2 pm)
      else
        []))

/-- The descending comparison used by the sort of source line 300:
a precedes-or-ties b when the profit percentage of b is at most that
of a. -/
def oppGE (a b : Opportunity) : Prop :=
  b.profit_pct ≤ a.profit_pct

instance : DecidableRel oppGE :=
  fun a b => inferInstanceAs (Decidable (b.profit_pct ≤ a.profit_pct))

instance : IsTotal Opportunity oppGE :=
  ⟨fun a b => le_total b.profit_pct a.profit_pct⟩

instance : IsTrans Opportunity oppGE :=
  ⟨fun _ _ _ h1 h2 => le_trans h2 h1⟩

/-- The stable descending sort by profit_pct of source line 300
(Python list.sort with key profit_pct and reverse true is a stable
descending sort; a stable descending sort is extensionally unique, so
insertion sort is a faithful model). -/
def sortOppDesc (l : List Opportunity) : List Opportunity :=
  List.insertionSort oppGE l

/-- find_arbitrage_opportunities (source lines 192-324) restricted to
its in-memory core: the two normalized record collections in, the
sorted opportunity list out. -/
def find_arbitrage_opportunities (min_profit_percent : ℚ) (use_us_poly_fee : Bool)
    (kalshi_markets : List KalshiMarket) (poly_markets : List PolyMarket) :
    List Opportunity :=
  sortOppDesc (collectOpportunities min_profit_percent use_us_poly_fee
    kalshi_markets poly_markets)

/-- Modelled from the spec: the per-direction evaluator of section 4.4,
used only to compare the source behaviour with the specified one. Each
hedge direction checks only its own two prices (one ask from each
venue); an absent price skips only that direction, and a present price
of zero is a valid price. -/
def evalPairSpec (min_profit_percent : ℚ) (use_us_poly_fee : Bool)
    (kalshi_market : KalshiMarket) (poly_market : PolyMarket) : List Opportunity :=
  let dir1 : List Opportunity :=
    match kalshi_market.yes_ask, poly_market.no_price with
    | some kalshi_yes_ask, some poly_no =>
      let poly_no_cents := poly_no * 100
      let kalshi_yes_fee := calculate_kalshi_fee kalshi_yes_ask
      let poly_no_fee := calculate_polymarket_fee poly_no_cents use_us_poly_fee
      let total_cost_1 := kalshi_yes_ask + kalshi_yes_fee + poly_no_cents + poly_no_fee
      let profit_1 := 100 - total_cost_1
      let profit_pct_1 := if total_cost_1 > 0 then profit_1 / total_cost_1 * 100 else 0
      if profit_pct_1 ≥ min_profit_percent then
        [{ strategy := "Buy YES on Kalshi, Buy NO on Polymarket"
           kalshi_market := kalshi_market.title
           kalshi_ticker := kalshi_market.ticker
           poly_market := poly_market.event_title
           kalshi_price := kalshi_yes_ask
           kalshi_fee := kalshi_yes_fee
           poly_price := poly_no_cents
           poly_fee := poly_no_fee
           total_cost := total_cost_1
           profit := profit_1
           profit_pct := profit_pct_1 }]
      else []
    | _, _ => []
  let dir2 : List Opportunity :=
    match kalshi_market.no_ask, poly_market.yes_price with
    | some kalshi_no_ask, some poly_yes =>
      let poly_yes_cents := poly_yes * 100
      let kalshi_no_fee := calculate_kalshi_fee kalshi_no_ask
      let poly_yes_fee := calculate_polymarket_fee poly_yes_cents use_us_poly_fee
      let total_cost_2 := kalshi_no_ask + kalshi_no_fee + poly_yes_cents + poly_yes_fee
      let profit_2 := 100 - total_cost_2
      let profit_pct_2 := if total_cost_2 > 0 then profit_2 / total_cost_2 * 100 else 0
      if profit_pct_2 ≥ min_profit_percent then
        [{ strategy := "Buy NO on Kalshi, Buy YES on Polymarket"
           kalshi_market := kalshi_market.title
           kalshi_ticker := kalshi_market.ticker
           poly_market := poly_market.event_title
           kalshi_price := kalshi_no_ask
           kalshi_fee := kalshi_no_fee
           poly_price := poly_yes_cents
           poly_fee := poly_yes_fee
           total_cost := total_cost_2
           profit := profit_2
           profit_pct := profit_pct_2 }]
      else []
    | _, _ => []
  dir1 ++ dir2

/-! ## Concrete records used to evaluate the claims on explicit inputs -/

def kalshiK1 : KalshiMarket :=
  { title := "btc up today", ticker := some "K1",
    yes_ask := some 40, no_ask := some 70, volume := none }

def kalshiK2 : KalshiMarket :=
  { title := "btc up today", ticker := some "K2",
    yes_ask := some 30, no_ask := some 80, volume := none }

def polyP1 : PolyMarket :=
  { event_title := "btc up today", market_question := none, market_id := some "P1",
    yes_price := some (3 / 10), no_price := some (2 / 5), volume := none }

/-- The opportunity the evaluator produces for kalshiK2 against polyP1
at threshold 1: buy Kalshi yes at 30 (fee 1.47) and Polymarket no at 40
cents (fee 0.8), total 72.27, profit 27.73. -/
def oppK2 : Opportunity :=
  { strategy := "Buy YES on Kalshi, Buy NO on Polymarket"
    kalshi_market := "btc up today", kalshi_ticker := some "K2"
    poly_market := "btc up today"
    kalshi_price := 30, kalshi_fee := 147 / 100
    poly_price := 40, poly_fee := 4 / 5
    total_cost := 7227 / 100, profit := 2773 / 100, profit_pct := 277300 / 7227 }

/-- The opportunity the evaluator produces for kalshiK1 against polyP1
at threshold 1: buy Kalshi yes at 40 (fee 1.68) and Polymarket no at 40
cents (fee 0.8), total 82.48, profit 17.52. -/
def oppK1 : Opportunity :=
  { strategy := "Buy YES on Kalshi, Buy NO on Polymarket"
    kalshi_market := "btc up today", kalshi_ticker := some "K1"
    poly_market := "btc up today"
    kalshi_price := 40, kalshi_fee := 42 / 25
    poly_price := 40, poly_fee := 4 / 5
    total_cost := 2062 / 25, profit := 438 / 25, profit_pct := 21900 / 1031 }

def kalshiC1 : KalshiMarket :=
  { title := "btc up today", ticker := some "KC1",
    yes_ask := some 40, no_ask := some 30, volume := none }

/-- A Polymarket record with only a yes price, as produced from a raw
price sequence with a single element. -/
def polyC1 : PolyMarket :=
  { event_title := "btc up today", market_question := none, market_id := some "PC1",
    yes_price := some (3 / 10), no_price := none, volume := none }

def kalshiC2 : KalshiMarket :=
  { title := "btc up today", ticker := some "KC2",
    yes_ask := some 0, no_ask := some 60, volume := none }

def polyC2 : PolyMarket :=
  { event_title := "btc up today", market_question := none, market_id := some "PC2",
    yes_price := some (3 / 10), no_price := some (2 / 5), volume := none }

def kalshiW2 : KalshiMarket :=
  { title := "btc up today", ticker := some "KW2",
    yes_ask := some 40, no_ask := some 60, volume := none }

def polyW2 : PolyMarket :=
  { event_title := "btc up today", market_question := none, market_id := some "PW2",
    yes_price := some (1 / 2), no_price := some 0, volume := none }

def kalshiNeg : KalshiMarket :=
  { title := "btc up today", ticker := some "KN",
    yes_ask := some 60, no_ask := some 60, volume := none }

def polyNeg : PolyMarket :=
  { event_title := "btc up today", market_question := none, market_id := some "PN",
    yes_price := some (3 / 5), no_price := some (3 / 5), volume := none }

/-- Loss-making direction-1 result for kalshiNeg against polyNeg:
total cost 122.88 cents, profit negative. -/
def oppNeg1 : Opportunity :=
  { strategy := "Buy YES on Kalshi, Buy NO on Polymarket"
    kalshi_market := "btc up today", kalshi_ticker := some "KN"
    poly_market := "btc up today"
    kalshi_price := 60, kalshi_fee := 42 / 25
    poly_price := 60, poly_fee := 6 / 5
    total_cost := 3072 / 25, profit := -572 / 25, profit_pct := -3575 / 192 }

/-- Loss-making direction-2 result for kalshiNeg against polyNeg. -/
def oppNeg2 : Opportunity :=
  { strategy := "Buy NO on Kalshi, Buy YES on Polymarket"
    kalshi_market := "btc up today", kalshi_ticker := some "KN"
    poly_market := "btc up today"
    kalshi_price := 60, kalshi_fee := 42 / 25
    poly_price := 60, poly_fee := 6 / 5
    total_cost := 3072 / 25, profit := -572 / 25, profit_pct := -3575 / 192 }

/-- A raw market whose JSON-decoded price sequence holds a non-numeric
element: float raises on it. -/
def badPriceMkt : RawPolyMarket :=
  { question := some "q1", id := some "m1", outcomePricesDecoded := some ["abc", "0.5"] }

/-- A well-formed raw market. -/
def goodPriceMkt : RawPolyMarket :=
  { question := some "q2", id := some "m2", outcomePricesDecoded := some ["0.3", "0.7"] }

/-- A raw market whose outcomePrices string itself fails JSON decoding
(recovered locally to the empty list by source lines 135-136). -/
def jsonFailMkt : RawPolyMarket :=
  { question := some "q3", id := some "m3", outcomePricesDecoded := none }

def eventFloatFail : RawPolyEvent :=
  { title := some "Bitcoin up", description := none,
    markets := [badPriceMkt, goodPriceMkt], volume := none }

def eventJsonFail : RawPolyEvent :=
  { title := some "Bitcoin up", description := none,
    markets := [jsonFailMkt], volume := none }

/-! ## Helper lemmas -/

/-- Membership in a conditional singleton list forces the element and
the condition. -/
theorem mem_ite_singleton {α : Type} {c : Prop} [Decidable c] {x a : α}
    (h : x ∈ (if c then [a] else ([] : List α))) : x = a ∧ c := by
  by_cases hc : c
  · rw [if_pos hc] at h
    exact ⟨List.mem_singleton.mp h, hc⟩
  · rw [if_neg hc] at h
    exact absurd h (List.not_mem_nil x)

/-- The empty character list occurs in every character list. -/
theorem occursIn_nil_left (l : List Char) : occursIn [] l = true := by
  cases l with
  | nil => rfl
  | cons d ds => simp [occursIn, prefixOfChars]

/-! ## Claims -/

/-- C6: the matching relation of source line 233 is symmetric: if key a
matches key b under the rule (word-set intersection of size at least 2,
or one key a literal substring of the other), then b matches a. -/
theorem matchKeys_symm (a b : String) (h : matchKeys a b = true) :
    matchKeys b a = true := by
  simp only [matchKeys, Bool.or_eq_true, decide_eq_true_eq] at h ⊢
  rcases h with (h | h) | h
  · exact Or.inl (Or.inl (by rwa [Finset.inter_comm]))
  · exact Or.inr h
  · exact Or.inl (Or.inr h)

/-- Witness for C6 at the concrete pair of keys: the keys share the two
words btc and up, so they match, and the theorem yields the match in
the other order. -/
theorem matchKeys_symm_witness : matchKeys "up btc" "btc up today" = true :=
  matchKeys_symm "btc up today" "up btc" (by decide)

/-- C7: for every price p in [0,100] the Kalshi fee equals
0.07 * (p/100) * (1 - p/100) * 100, is symmetric about 50, and
vanishes at the endpoints. -/
theorem kalshi_fee_properties (p : ℚ) (h0 : 0 ≤ p) (h1 : p ≤ 100) :
    calculate_kalshi_fee p = 7 / 100 * (p / 100) * (1 - p / 100) * 100 ∧
    calculate_kalshi_fee p = calculate_kalshi_fee (100 - p) ∧
    calculate_kalshi_fee 0 = 0 ∧ calculate_kalshi_fee 100 = 0 := by
  refine ⟨?_, ?_, ?_, ?_⟩ <;> simp only [calculate_kalshi_fee] <;> ring

/-- Witness for C7 at p = 40. -/
theorem kalshi_fee_properties_witness :
    calculate_kalshi_fee 40 = 7 / 100 * (40 / 100) * (1 - 40 / 100) * 100 ∧
    calculate_kalshi_fee 40 = calculate_kalshi_fee (100 - 40) ∧
    calculate_kalshi_fee 0 = 0 ∧ calculate_kalshi_fee 100 = 0 :=
  kalshi_fee_properties 40 (by norm_num) (by norm_num)

/-- C10: a Kalshi record whose title is missing defaults to the empty
string (source line 65), and any title normalizing to the empty key
matches every Polymarket key, because the empty string is a substring
of every string, satisfying the substring branch of line 233. -/
theorem empty_key_matches_everything (title poly_key : String)
    (h : normKey title = "") :
    matchKeys (normKey title) poly_key = true := by
  rw [h]
  have h2 : strIn "" poly_key = true := by
    show occursIn "".data poly_key.data = true
    exact occursIn_nil_left poly_key.data
  simp [matchKeys, h2]

/-- Witness for C10: a pure-whitespace title, which normalizes to the
empty key, matches an arbitrary Polymarket key. -/
theorem empty_key_matches_everything_witness :
    matchKeys (normKey "  ") "will btc hit 100k" = true :=
  empty_key_matches_everything "  " "will btc hit 100k" (by decide)

/-- Filtering to one profit_pct value yields a list that is pairwise
related by the descending comparison (all keys are equal). -/
theorem pairwise_filter_key (l : List Opportunity) (v : ℚ) :
    (l.filter (fun o => decide (o.profit_pct = v))).Pairwise oppGE := by
  apply List.pairwise_of_forall_mem_list
  intro a ha b hb
  rw [List.mem_filter, decide_eq_true_eq] at ha hb
  show b.profit_pct ≤ a.profit_pct
  rw [ha.2, hb.2]

/-- Stability of the sort, in filter form: the elements of any fixed
profit_pct value appear in the sorted list exactly in their input
order. -/
theorem sortOppDesc_filter_key (l : List Opportunity) (v : ℚ) :
    (sortOppDesc l).filter (fun o => decide (o.profit_pct = v)) =
      l.filter (fun o => decide (o.profit_pct = v)) := by
  set p : Opportunity → Bool := fun o => decide (o.profit_pct = v) with hp
  have hsub : List.Sublist (l.filter p) (sortOppDesc l) :=
    List.sublist_insertionSort (pairwise_filter_key l v) (List.filter_sublist l)
  have hfix : (l.filter p).filter p = l.filter p := by
    rw [List.filter_eq_self]
    intro a ha
    exact (List.mem_filter.mp ha).2
  have h1 : List.Sublist (l.filter p) ((sortOppDesc l).filter p) := by
    have h2 := hsub.filter p
    rwa [hfix] at h2
  have hperm : List.Perm (l.filter p) ((sortOppDesc l).filter p) :=
    ((List.perm_insertionSort oppGE l).symm.filter p)
  exact (h1.eq_of_length hperm.length_eq).symm

/-- C9: the reported list is sorted non-increasing by profit_pct, and
the sort is stable: for each fixed profit_pct value, the reported
elements of that value are exactly the evaluator-emitted elements of
that value, in emission order (direction 1 before direction 2 within a
pair, pairs in dict iteration order, as collectOpportunities emits
them). -/
theorem report_sorted_and_stable (min_profit_percent : ℚ) (use_us_poly_fee : Bool)
    (kalshi_markets : List KalshiMarket) (poly_markets : List PolyMarket) :
    (find_arbitrage_opportunities min_profit_percent use_us_poly_fee
        kalshi_markets poly_markets).Pairwise
      (fun a b => b.profit_pct ≤ a.profit_pct) ∧
    ∀ v : ℚ,
      (find_arbitrage_opportunities min_profit_percent use_us_poly_fee
          kalshi_markets poly_markets).filter (fun o => decide (o.profit_pct = v)) =
        (collectOpportunities min_profit_percent use_us_poly_fee
          kalshi_markets poly_markets).filter (fun o => decide (o.profit_pct = v)) := by
  constructor
  · exact List.sorted_insertionSort oppGE
      (collectOpportunities min_profit_percent use_us_poly_fee kalshi_markets poly_markets)
  · intro v
    exact sortOppDesc_filter_key
      (collectOpportunities min_profit_percent use_us_poly_fee kalshi_markets poly_markets) v

/-- Concrete evaluation: kalshiK2 against polyP1 at threshold 1 yields
exactly the direction-1 opportunity oppK2. -/
theorem evalPair_K2_P1 : evalPair 1 false kalshiK2 polyP1 = [oppK2] := by
  norm_num [evalPair, kalshiK2, polyP1, oppK2,
    calculate_kalshi_fee, calculate_polymarket_fee]

/-- Concrete evaluation: kalshiK1 against polyP1 at threshold 1 yields
exactly the direction-1 opportunity oppK1. -/
theorem evalPair_K1_P1 : evalPair 1 false kalshiK1 polyP1 = [oppK1] := by
  norm_num [evalPair, kalshiK1, polyP1, oppK1,
    calculate_kalshi_fee, calculate_polymarket_fee]

/-- Concrete evaluation: at the out-of-range threshold -1000 the
evaluator emits both loss-making directions for kalshiNeg against
polyNeg. -/
theorem evalPair_Neg : evalPair (-1000) false kalshiNeg polyNeg = [oppNeg1, oppNeg2] := by
  norm_num [evalPair, kalshiNeg, polyNeg, oppNeg1, oppNeg2,
    calculate_kalshi_fee, calculate_polymarket_fee]

/-- C8: every opportunity the evaluator emits satisfies the payout
invariant profit plus total cost equals 100 exactly. -/
theorem opportunity_payout_invariant (min_profit_percent : ℚ) (use_us_poly_fee : Bool)
    (km : KalshiMarket) (pm : PolyMarket) (o : Opportunity)
    (h : o ∈ evalPair min_profit_percent use_us_poly_fee km pm) :
    o.profit + o.total_cost = 100 := by
  obtain ⟨t1, tk, ya, na, vol⟩ := km
  obtain ⟨et, mq, mid, yp, np, v2⟩ := pm
  cases ya <;> cases na <;> cases yp <;> cases np <;>
      simp only [evalPair] at h <;>
    try exact absurd h (List.not_mem_nil o)
  split at h
  · exact absurd h (List.not_mem_nil o)
  rw [List.mem_append] at h
  rcases h with h | h <;>
    · obtain ⟨rfl, -⟩ := mem_ite_singleton h
      dsimp only
      ring

/-- Witness for C8 at oppK2, emitted for kalshiK2 against polyP1. -/
theorem opportunity_payout_invariant_witness : oppK2.profit + oppK2.total_cost = 100 :=
  opportunity_payout_invariant 1 false kalshiK2 polyP1 oppK2
    (by rw [evalPair_K2_P1]; exact List.mem_singleton_self oppK2)

/-- C5 amended: the evaluator performs no validation of
min_profit_percent; whatever threshold is supplied is applied as given,
every emitted opportunity merely satisfying threshold at most
profit_pct. -/
theorem threshold_applied_unchecked (min_profit_percent : ℚ) (use_us_poly_fee : Bool)
    (km : KalshiMarket) (pm : PolyMarket) (o : Opportunity)
    (h : o ∈ evalPair min_profit_percent use_us_poly_fee km pm) :
    min_profit_percent ≤ o.profit_pct := by
  obtain ⟨t1, tk, ya, na, vol⟩ := km
  obtain ⟨et, mq, mid, yp, np, v2⟩ := pm
  cases ya <;> cases na <;> cases yp <;> cases np <;>
      simp only [evalPair] at h <;>
    try exact absurd h (List.not_mem_nil o)
  split at h
  · exact absurd h (List.not_mem_nil o)
  rw [List.mem_append] at h
  rcases h with h | h <;>
    · obtain ⟨rfl, hc⟩ := mem_ite_singleton h
      exact hc

/-- Witness for the amended C5 at oppK2, emitted at threshold 1. -/
theorem threshold_applied_unchecked_witness : (1 : ℚ) ≤ oppK2.profit_pct :=
  threshold_applied_unchecked 1 false kalshiK2 polyP1 oppK2
    (by rw [evalPair_K2_P1]; exact List.mem_singleton_self oppK2)

/-- C1 amended: directions are not evaluated independently; if any one
of the four price fields is absent, the evaluator skips the entire
combination silently, both directions included. -/
theorem absent_price_skips_both_directions (min_profit_percent : ℚ)
    (use_us_poly_fee : Bool) (km : KalshiMarket) (pm : PolyMarket)
    (h : km.yes_ask = none ∨ km.no_ask = none ∨
      pm.yes_price = none ∨ pm.no_price = none) :
    evalPair min_profit_percent use_us_poly_fee km pm = [] := by
  obtain ⟨t1, tk, ya, na, vol⟩ := km
  obtain ⟨et, mq, mid, yp, np, v2⟩ := pm
  dsimp only at h
  cases ya <;> cases na <;> cases yp <;> cases np <;>
    first
      | rfl
      | simp at h

/-- Witness for the amended C1: polyC1 lacks a no price, so the pair
with kalshiC1 is skipped entirely even though direction 2 is fully
priced. -/
theorem absent_price_skips_both_directions_witness :
    evalPair 1 false kalshiC1 polyC1 = [] :=
  absent_price_skips_both_directions 1 false kalshiC1 polyC1
    (Or.inr (Or.inr (Or.inr rfl)))

/-- C2 amended: a price equal to zero is treated as missing, not
present: if any one of the four price fields equals zero, the evaluator
skips the entire combination. -/
theorem zero_price_skips_both_directions (min_profit_percent : ℚ)
    (use_us_poly_fee : Bool) (km : KalshiMarket) (pm : PolyMarket)
    (h : km.yes_ask = some 0 ∨ km.no_ask = some 0 ∨
      pm.yes_price = some 0 ∨ pm.no_price = some 0) :
    evalPair min_profit_percent use_us_poly_fee km pm = [] := by
  obtain ⟨t1, tk, ya, na, vol⟩ := km
  obtain ⟨et, mq, mid, yp, np, v2⟩ := pm
  dsimp only at h
  cases ya <;> cases na <;> cases yp <;> cases np <;>
    first
      | rfl
      | (rcases h with h | h | h | h <;>
          (rw [Option.some_inj] at h; subst h; simp [evalPair]))

/-- Witness for the amended C2: polyW2 quotes a no price of exactly 0,
so the pair with kalshiW2 is skipped entirely. -/
theorem zero_price_skips_both_directions_witness :
    evalPair 1 false kalshiW2 polyW2 = [] :=
  zero_price_skips_both_directions 1 false kalshiW2 polyW2
    (Or.inr (Or.inr (Or.inr rfl)))

/-- Counterexample for C1: polyC1 has a yes price but no no price
(raw sequence with one element), and kalshiC1 has both asks. Direction
2 needs only the Kalshi no ask and the Polymarket yes price, both
present and profitable, yet the evaluator emits nothing, while the
per-direction evaluator of the spec emits the direction-2
opportunity. -/
theorem direction_independence_counterexample :
    evalPair 1 false kalshiC1 polyC1 = [] ∧
    (evalPairSpec 1 false kalshiC1 polyC1).map (fun o => o.strategy) =
      ["Buy NO on Kalshi, Buy YES on Polymarket"] := by
  constructor
  · rfl
  · norm_num [evalPairSpec, kalshiC1, polyC1,
      calculate_kalshi_fee, calculate_polymarket_fee]

/-- Counterexample for C2: kalshiC2 quotes a yes ask of exactly 0 and
all four price fields are present, yet the evaluator emits nothing
(zero is treated as falsy by the presence check of source line 241),
while the spec evaluator, for which zero is a valid present price,
emits both directions. -/
theorem zero_price_counterexample :
    evalPair 1 false kalshiC2 polyC2 = [] ∧
    (evalPairSpec 1 false kalshiC2 polyC2).length = 2 := by
  constructor
  · rfl
  · norm_num [evalPairSpec, kalshiC2, polyC2,
      calculate_kalshi_fee, calculate_polymarket_fee]

/-- C3: at a raw feed whose one Bitcoin event holds first a market with
a non-numeric price element and then a well-formed market, the whole
normalization pass aborts and returns the empty list (the float
conversion of source line 138 sits outside the try of lines 130-136,
so its exception reaches the function-level handler of line 159); by
contrast a JSON-decode failure alone is recovered locally, the market
keeping absent prices. -/
theorem float_failure_aborts_normalization :
    fetch_polymarket_btc_markets [eventFloatFail] = [] ∧
    fetch_polymarket_btc_markets [eventJsonFail] =
      [{ event_title := "Bitcoin up", market_question := some "q3",
         market_id := some "m3", yes_price := none, no_price := none,
         volume := none }] := by
  constructor <;> rfl

/-- Concrete dict computation: two Kalshi records with the same
normalized title collapse to one entry holding the later record. -/
theorem buildKalshiDict_K1K2 :
    buildKalshiDict [kalshiK1, kalshiK2] = [("btc up today", kalshiK2)] := by
  decide

/-- Concrete dict computation for the single polyP1 record. -/
theorem buildPolyDict_P1 :
    buildPolyDict [polyP1] = [("btc up today", [polyP1])] := by
  have h : normKey polyP1.event_title = "btc up today" := by decide
  simp [buildPolyDict, pdictInsert, h]

/-- Counterexample for C4: kalshiK1 and kalshiK2 share a normalized
title; the full pipeline reports only the combination with kalshiK2
(the dict of source line 214 keeps one record per key, the last
inserted), although the dropped combination (kalshiK1, polyP1) matches
and would have been evaluated to the profitable opportunity oppK1. -/
theorem duplicate_key_drops_combination_counterexample :
    (find_arbitrage_opportunities 1 false [kalshiK1, kalshiK2] [polyP1]).map
        (fun o => o.kalshi_ticker) = [some "K2"] ∧
    evalPair 1 false kalshiK1 polyP1 = [oppK1] := by
  constructor
  · have hm : matchKeys "btc up today" "btc up today" = true := by decide
    rw [find_arbitrage_opportunities, collectOpportunities,
      buildKalshiDict_K1K2, buildPolyDict_P1]
    simp [hm, evalPair_K2_P1, sortOppDesc, List.insertionSort,
      List.orderedInsert, oppK2]
  · exact evalPair_K1_P1

/-- C4 amended: when two Kalshi records share a normalized display key,
the pipeline behaves as if only the later record existed; its
combinations alone are evaluated (Polymarket records, grouped in lists,
are all kept). -/
theorem duplicate_key_last_wins (min_profit_percent : ℚ) (use_us_poly_fee : Bool)
    (k1 k2 : KalshiMarket) (poly_markets : List PolyMarket)
    (h : normKey k1.title = normKey k2.title) :
    find_arbitrage_opportunities min_profit_percent use_us_poly_fee [k1, k2] poly_markets =
      find_arbitrage_opportunities min_profit_percent use_us_poly_fee [k2] poly_markets := by
  have hd : buildKalshiDict [k1, k2] = buildKalshiDict [k2] := by
    simp [buildKalshiDict, kdictInsert, h]
  rw [find_arbitrage_opportunities, find_arbitrage_opportunities,
    collectOpportunities, collectOpportunities, hd]

/-- Witness for the amended C4 at kalshiK1 and kalshiK2, which share
the normalized key. -/
theorem duplicate_key_last_wins_witness :
    find_arbitrage_opportunities 1 false [kalshiK1, kalshiK2] [] =
      find_arbitrage_opportunities 1 false [kalshiK2] [] :=
  duplicate_key_last_wins 1 false kalshiK1 kalshiK2 [] rfl

/-- Counterexample for C5: at the out-of-range threshold -1000 the full
pipeline proceeds and reports two loss-making opportunities instead of
rejecting the configuration at its entry boundary. -/
theorem invalid_threshold_counterexample :
    (find_arbitrage_opportunities (-1000) false [kalshiNeg] [polyNeg]).map
        (fun o => o.profit_pct) = [-3575 / 192, -3575 / 192] ∧
    (-3575 / 192 : ℚ) < 0 := by
  constructor
  · have hk : buildKalshiDict [kalshiNeg] = [("btc up today", kalshiNeg)] := by
      decide
    have hp : buildPolyDict [polyNeg] = [("btc up today", [polyNeg])] := by
      have h : normKey polyNeg.event_title = "btc up today" := by decide
      simp [buildPolyDict, pdictInsert, h]
    have hm : matchKeys "btc up today" "btc up today" = true := by decide
    rw [find_arbitrage_opportunities, collectOpportunities, hk, hp]
    simp [hm, evalPair_Neg, sortOppDesc, List.insertionSort,
      List.orderedInsert, oppGE, oppNeg1, oppNeg2]
  · norm_num

end BtcFetcher
